import Mathlib

/-!
Shallow embedding of `src/blackjack.py`.

The source is a single-file terminal blackjack game. The embedding below
follows the source structure: `Suit`, `Card`, `Deck`, `Hand`, and the
`BlackjackGame` state (here `GameState`) together with the functions
`determine_winner`, `player_hit`, `dealer_play`, `start_round`, and the
body of the main loop of `play` (here `playRound`).

Modelling conventions, each noted again at its definition:
- `random.shuffle` is a `shuffle : List Card → List Card` parameter; the
  only fact used about it is that a permutation preserves length.
- Python `list.pop()` removes the last element; pop from an empty list
  (an `IndexError`) is modelled as `none`.
- interactive input is a `List Action` of successive entries; a program
  that would still be blocked waiting for input yields `none`.
- Python `int(x)` applied to the float `bet * multiplier` truncates
  toward zero; the products that occur are exactly representable, so
  rational arithmetic models them exactly (`pyInt`).
- the `while` loop of `dealer_play` carries an explicit fuel; it is
  irrelevant whenever the dealer already stands.
-/

set_option autoImplicit false

namespace Blackjack

/-- Suits of the Python `Suit` enum, in declaration order (hearts,
diamonds, clubs, spades). The display symbols attached to the enum are
used only by the excluded rendering layer and are omitted. -/
inductive Suit
  | hearts
  | diamonds
  | clubs
  | spades
deriving DecidableEq

/-- Card as in the source: a suit and a rank string. `Card.__init__`
stores the two fields directly and performs no validation of either. -/
structure Card where
  suit : Suit
  rank : String
deriving DecidableEq

/-- Rank list from `Deck.reset`, the only list of ranks in the source. -/
def rankList : List String :=
  ["2", "3", "4", "5", "6", "7", "8", "9", "10", "J", "Q", "K", "A"]

/-- Membership in the fixed 13 ranks of `Deck.reset`. -/
def validRank (r : String) : Bool := rankList.contains r

/-- Python `Card.__init__`: stores the fields as given; it cannot raise,
and the source contains no validation and no InvalidCardSpec error. -/
def cardInit (suit : Suit) (rank : String) : Card :=
  { suit := suit, rank := rank }

/-- Decimal digit value of a character, by its code point. -/
def digitVal? (ch : Char) : Option Nat :=
  if 48 ≤ ch.toNat ∧ ch.toNat ≤ 57 then some (ch.toNat - 48) else none

/-- Decimal accumulation over the characters of a rank string. -/
def decimalAux : List Char → Nat → Option Nat
  | [], acc => some acc
  | ch :: rest, acc =>
    match digitVal? ch with
    | none => none
    | some d => decimalAux rest (acc * 10 + d)

/-- Python `int` applied to a rank string: the value of a nonempty string
of decimal digits, and a ValueError, modelled as `none`, otherwise. The
sign and whitespace forms `int` also accepts never occur as ranks. -/
def strToNat? (r : String) : Option Nat :=
  match r.data with
  | [] => none
  | ch :: rest => decimalAux (ch :: rest) 0

/-- Python `Card.get_value` as written: J, Q, K give 10, A gives 11, any
other rank goes through `int(rank)`. A rank on which `int` raises
ValueError is modelled as `none`. -/
def Card.get_value? (c : Card) : Option Nat :=
  if c.rank = "J" ∨ c.rank = "Q" ∨ c.rank = "K" then some 10
  else if c.rank = "A" then some 11
  else strToNat? c.rank

/-- Total form of `Card.get_value` used for hand totals. Every card the
program builds has a rank from `rankList`, where this agrees with
`Card.get_value?`; on a malformed rank Python raises where this gives 0. -/
def Card.get_value (c : Card) : Nat := (c.get_value?).getD 0

/-- Hand as in the source: an ordered list of cards. -/
structure Hand where
  cards : List Card
deriving DecidableEq

/-- Python `Hand.add_card`: append to the sequence. -/
def Hand.add_card (h : Hand) (c : Card) : Hand := { cards := h.cards ++ [c] }

/-- While loop of `Hand.get_value`: while value > 21 and aces > 0,
subtract 10 and consume one ace. Recursion is on the ace count, which the
loop body decrements. -/
def adjustAces : Nat → Nat → Nat
  | value, 0 => value
  | value, aces + 1 => if 21 < value then adjustAces (value - 10) aces else value

/-- Raw accumulation pass of `Hand.get_value`: sum of card values with
every ace counted as 11. -/
def Hand.rawTotal (h : Hand) : Nat := (h.cards.map Card.get_value).sum

/-- Ace count accumulated in the same pass of `Hand.get_value`. -/
def Hand.aceCount (h : Hand) : Nat := h.cards.countP (fun c => c.rank == "A")

/-- Python `Hand.get_value`: raw total and ace count, then the soft-ace
adjustment loop. -/
def Hand.get_value (h : Hand) : Nat := adjustAces h.rawTotal h.aceCount

/-- Python `Hand.is_blackjack`: exactly two cards totalling 21. -/
def Hand.is_blackjack (h : Hand) : Bool :=
  h.cards.length == 2 && h.get_value == 21

/-- Cards of one suit in the rank order of `Deck.reset`. -/
def suitCards (s : Suit) : List Card :=
  rankList.map (fun r => { suit := s, rank := r })

/-- One 52-card deck in the iteration order of `Deck.reset` (for suit in
Suit, for rank in ranks). -/
def deckCards : List Card :=
  suitCards Suit.hearts ++ suitCards Suit.diamonds ++
    suitCards Suit.clubs ++ suitCards Suit.spades

/-- Cards built by the loops of `Deck.reset`: `num_decks` copies of the
52-card deck, appended one copy after another. -/
def freshCards : Nat → List Card
  | 0 => []
  | n + 1 => freshCards n ++ deckCards

/-- Deck (the shoe): the card list plus the configured number of decks. -/
structure Deck where
  cards : List Card
  num_decks : Nat
deriving DecidableEq

/-- Python `Deck.reset`: rebuild `num_decks × 52` cards and shuffle.
`random.shuffle` permutes the list in place and is modelled by the
`shuffle` parameter supplied by the environment. -/
def Deck.reset (shuffle : List Card → List Card) (d : Deck) : Deck :=
  { d with cards := shuffle (freshCards d.num_decks) }

/-- Python `Deck.draw`: reset first when fewer than 10 cards remain, then
`list.pop()` removes and returns the last element. Pop from an empty list
(an IndexError) is modelled as `none`. -/
def Deck.draw (shuffle : List Card → List Card) (d : Deck) : Option (Card × Deck) :=
  let d' := if d.cards.length < 10 then d.reset shuffle else d
  match d'.cards.getLast? with
  | none => none
  | some c => some (c, { d' with cards := d'.cards.dropLast })

/-- Exact product of two rationals, written with `mkRat` (the Batteries
product is irreducible, which would block concrete evaluation); equal to
the ordinary product by `ratMul_eq` below. -/
def ratMul (a b : ℚ) : ℚ := mkRat (a.num * b.num) (a.den * b.den)

/-- Python `int()` applied to `current_bet * multiplier`: truncation
toward zero. The multipliers the engine produces are −1, 1, 2 and 5/2,
whose products with the integer bet are exactly representable floats, so
rational arithmetic models the computation exactly. -/
def pyInt (q : ℚ) : Int := Int.sign q.num * ((q.num.natAbs / q.den : Nat) : Int)

/-- Session and round state of `BlackjackGame`. -/
structure GameState where
  deck : Deck
  player_hand : Hand
  dealer_hand : Hand
  player_balance : Int
  starting_balance : Int
  current_bet : Nat
  wins : Nat
  losses : Nat
  pushes : Nat
  blackjacks : Nat
  busts : Nat
  total_wagered : Nat
  total_won : Int
deriving DecidableEq

/-- Python `BlackjackGame.start_round`: fresh hands, then deal two cards
each, alternating player, dealer, player, dealer. -/
def GameState.start_round (shuffle : List Card → List Card) (s : GameState) :
    Option GameState :=
  match s.deck.draw shuffle with
  | none => none
  | some (p1, k1) =>
    match k1.draw shuffle with
    | none => none
    | some (d1, k2) =>
      match k2.draw shuffle with
      | none => none
      | some (p2, k3) =>
        match k3.draw shuffle with
        | none => none
        | some (d2, k4) =>
          some { s with
                 deck := k4,
                 player_hand := ((Hand.mk []).add_card p1).add_card p2,
                 dealer_hand := ((Hand.mk []).add_card d1).add_card d2 }

/-- Python `BlackjackGame.player_hit`: draw into the player hand and
report whether the new total is at most 21 (false signals a bust). -/
def GameState.player_hit (shuffle : List Card → List Card) (s : GameState) :
    Option (GameState × Bool) :=
  match s.deck.draw shuffle with
  | none => none
  | some (c, k) =>
    let s' := { s with deck := k, player_hand := s.player_hand.add_card c }
    some (s', decide (s'.player_hand.get_value ≤ 21))

/-- Python `BlackjackGame.dealer_play`: hit while the dealer total is
below 17. The while loop has no explicit bound in the source; the fuel
bounds the recursion here and is irrelevant whenever the dealer already
stands. -/
def GameState.dealer_play (shuffle : List Card → List Card) :
    Nat → GameState → Option GameState
  | 0, s => if s.dealer_hand.get_value < 17 then none else some s
  | fuel + 1, s =>
    if s.dealer_hand.get_value < 17 then
      match s.deck.draw shuffle with
      | none => none
      | some (c, k) =>
        GameState.dealer_play shuffle fuel
          { s with deck := k, dealer_hand := s.dealer_hand.add_card c }
    else some s

/-- Python `BlackjackGame.determine_winner`: the payout multiplier the
code returns (as an exact rational), the result message, and the state
with the outcome counters updated. The tie message of the source contains
an apostrophe, elided here. -/
def GameState.determine_winner (s : GameState) : ℚ × String × GameState :=
  let player_value := s.player_hand.get_value
  let dealer_value := s.dealer_hand.get_value
  if 21 < player_value then
    (-1, "Player busted! Dealer wins.",
      { s with busts := s.busts + 1, losses := s.losses + 1 })
  else if 21 < dealer_value then
    (2, "Dealer busted! Player wins!", { s with wins := s.wins + 1 })
  else if s.player_hand.is_blackjack && !s.dealer_hand.is_blackjack then
    (mkRat 5 2, "Blackjack! Player wins!",
      { s with wins := s.wins + 1, blackjacks := s.blackjacks + 1 })
  else if s.dealer_hand.is_blackjack && !s.player_hand.is_blackjack then
    (-1, "Dealer has blackjack. Dealer wins.", { s with losses := s.losses + 1 })
  else if s.player_hand.is_blackjack && s.dealer_hand.is_blackjack then
    (1, "Both have blackjack. Push!", { s with pushes := s.pushes + 1 })
  else if dealer_value < player_value then
    (2, "Player wins!", { s with wins := s.wins + 1 })
  else if player_value < dealer_value then
    (-1, "Dealer wins.", { s with losses := s.losses + 1 })
  else
    (1, "Push! It is a tie.", { s with pushes := s.pushes + 1 })

/-- Payout lines of `play` after `determine_winner` (source lines
339-342): `payout = int(current_bet * multiplier)` is added to the
balance, and `total_won` grows by the payout exactly when the multiplier
is positive. -/
def GameState.settle (s : GameState) (multiplier : ℚ) : GameState :=
  let payout := pyInt (ratMul (s.current_bet : ℚ) multiplier)
  let s' := { s with player_balance := s.player_balance + payout }
  if 0 < multiplier then { s' with total_won := s'.total_won + payout } else s'

/-- Non-bust ending of a round (source lines 333-342): the dealer plays,
then `determine_winner` and the payout lines run. -/
def GameState.resolveShowdown (shuffle : List Card → List Card) (fuel : Nat)
    (s : GameState) : Option GameState :=
  match GameState.dealer_play shuffle fuel s with
  | none => none
  | some s' =>
    let r := s'.determine_winner
    some (r.2.2.settle r.1)

/-- Dealer-blackjack pre-check of `play` (source lines 273-282): both
naturals push and return the bet with no `total_won` change; otherwise the
loss changes no balance further. -/
def GameState.dealerBlackjackBranch (s : GameState) : GameState :=
  if s.player_hand.is_blackjack then
    { s with pushes := s.pushes + 1,
             player_balance := s.player_balance + (s.current_bet : Int) }
  else
    { s with losses := s.losses + 1 }

/-- Player-blackjack pre-check of `play` (source lines 285-293):
`win_amount = int(current_bet * 2.5)` is credited, with the win and
blackjack counters and `total_won`. -/
def GameState.playerBlackjackBranch (s : GameState) : GameState :=
  let win_amount := pyInt (ratMul (s.current_bet : ℚ) (mkRat 5 2))
  { s with wins := s.wins + 1,
           blackjacks := s.blackjacks + 1,
           total_won := s.total_won + win_amount,
           player_balance := s.player_balance + win_amount }

/-- Player inputs of the action loop: h, s, d; anything else re-prompts. -/
inductive Action
  | hit
  | stand
  | double
  | other
deriving DecidableEq

/-- Player-turn while loop of `play` (source lines 296-331). The action
list stands for successive inputs; an exhausted list means the program
would still be blocked waiting for input, modelled as `none`. The Bool of
the result is the bust flag of the loop. -/
def playerTurn (shuffle : List Card → List Card) :
    GameState → List Action → Bool → Option (GameState × Bool)
  | _, [], _ => none
  | s, Action.hit :: rest, doubled =>
    match s.player_hit shuffle with
    | none => none
    | some (s', ok) =>
      if ok then playerTurn shuffle s' rest doubled else some (s', true)
  | s, Action.stand :: _, _ => some (s, false)
  | s, Action.double :: rest, doubled =>
    if s.player_hand.cards.length = 2 ∧ doubled = false then
      if s.player_balance < (s.current_bet : Int) then
        playerTurn shuffle s rest doubled
      else
        let s1 := { s with
                    player_balance := s.player_balance - (s.current_bet : Int),
                    current_bet := 2 * s.current_bet }
        let s2 := { s1 with total_wagered := s1.total_wagered + s1.current_bet / 2 }
        match s2.player_hit shuffle with
        | none => none
        | some (s', ok) => some (s', !ok)
    else
      playerTurn shuffle s rest doubled
  | s, Action.other :: rest, doubled => playerTurn shuffle s rest doubled

/-- Body of the main while loop of `play` (source lines 252-342), one
round. The bet-entry loop re-prompts until the bet is valid, so an invalid
bet never proceeds, modelled as `none`; a valid bet is recorded in
`current_bet`, added to `total_wagered` and deducted from the balance.
Then the round is dealt, the two blackjack pre-checks run, and otherwise
the player turn and, when the player did not bust, the showdown. -/
def playRound (shuffle : List Card → List Card) (fuel : Nat) (s0 : GameState)
    (bet : Nat) (acts : List Action) : Option GameState :=
  if bet = 0 ∨ s0.player_balance < (bet : Int) then none
  else
    let s := { s0 with
               current_bet := bet,
               total_wagered := s0.total_wagered + bet,
               player_balance := s0.player_balance - (bet : Int) }
    match s.start_round shuffle with
    | none => none
    | some s1 =>
      if s1.dealer_hand.is_blackjack then some s1.dealerBlackjackBranch
      else if s1.player_hand.is_blackjack then some s1.playerBlackjackBranch
      else
        match playerTurn shuffle s1 acts false with
        | none => none
        | some (s2, bust) =>
          if bust then some s2 else s2.resolveShowdown shuffle fuel


/-- Ten low filler cards; the concrete decks below keep at least ten cards
at every draw of a round, so the reshuffle branch is never taken and the
dealt cards are the listed ones. -/
def filler : List Card := List.replicate 10 (cardInit Suit.clubs "2")

/-- Fresh session exactly as `BlackjackGame.__init__` (balance 1000, six
decks, all counters zero), with the shoe order fixed to the given list, as
a seeded shuffle would. Cards are drawn from the end of the list. -/
def initState (cards : List Card) : GameState :=
  { deck := { cards := cards, num_decks := 6 },
    player_hand := Hand.mk [],
    dealer_hand := Hand.mk [],
    player_balance := 1000,
    starting_balance := 1000,
    current_bet := 0,
    wins := 0, losses := 0, pushes := 0, blackjacks := 0, busts := 0,
    total_wagered := 0, total_won := 0 }

/-- Shoe dealing player 10 and 8 (18), dealer 10 and 10 (20): the player
stands and loses through `determine_winner`. -/
def c1Cards : List Card :=
  filler ++ [cardInit Suit.spades "10", cardInit Suit.hearts "8",
             cardInit Suit.diamonds "10", cardInit Suit.hearts "10"]

/-- Shoe dealing the dealer a natural (ace and king) and the player 18:
the round is lost through the dealer-blackjack pre-check instead. -/
def c1DealerBJCards : List Card :=
  filler ++ [cardInit Suit.diamonds "K", cardInit Suit.spades "8",
             cardInit Suit.clubs "A", cardInit Suit.hearts "10"]

/-- Shoe dealing player 10 and 9 (19), dealer 10 and 7 (17), then a 5 for
the hit: the player busts at 24. -/
def c2Cards : List Card :=
  filler ++ [cardInit Suit.clubs "5", cardInit Suit.spades "7",
             cardInit Suit.hearts "9", cardInit Suit.diamonds "10",
             cardInit Suit.hearts "10"]

/-- Shoe dealing player 10 and 9 (19) and dealer 10 and 9 (19): the stand
ends in a push through `determine_winner`. -/
def c3Cards : List Card :=
  filler ++ [cardInit Suit.spades "9", cardInit Suit.hearts "9",
             cardInit Suit.diamonds "10", cardInit Suit.hearts "10"]

/-- Mid-round state with equal 19-point hands and a 100 bet placed, as the
engine reaches `determine_winner` on a stand. -/
def c3PushState : GameState :=
  { deck := { cards := filler, num_decks := 6 },
    player_hand := { cards := [cardInit Suit.hearts "10", cardInit Suit.hearts "9"] },
    dealer_hand := { cards := [cardInit Suit.diamonds "10", cardInit Suit.spades "9"] },
    player_balance := 900,
    starting_balance := 1000,
    current_bet := 100,
    wins := 0, losses := 0, pushes := 0, blackjacks := 0, busts := 0,
    total_wagered := 100, total_won := 0 }

/-- Mid-round state with a busted 22-point player hand against a 26-point
dealer hand, feeding `determine_winner` directly. -/
def c4State : GameState :=
  { deck := { cards := filler, num_decks := 6 },
    player_hand := { cards := [cardInit Suit.hearts "K", cardInit Suit.hearts "Q",
                               cardInit Suit.hearts "2"] },
    dealer_hand := { cards := [cardInit Suit.spades "K", cardInit Suit.spades "Q",
                               cardInit Suit.spades "6"] },
    player_balance := 900,
    starting_balance := 1000,
    current_bet := 100,
    wins := 0, losses := 0, pushes := 0, blackjacks := 0, busts := 0,
    total_wagered := 100, total_won := 0 }

/-- Mid-round state at the action prompt: balance 1000 and bet 100 placed
(balance 900), a two-card 18 against a dealer 17, one low card on top of
the shoe for the forced double-down hit. -/
def c7State : GameState :=
  { deck := { cards := filler ++ [cardInit Suit.clubs "2"], num_decks := 6 },
    player_hand := { cards := [cardInit Suit.hearts "10", cardInit Suit.hearts "8"] },
    dealer_hand := { cards := [cardInit Suit.diamonds "10", cardInit Suit.spades "7"] },
    player_balance := 900,
    starting_balance := 1000,
    current_bet := 100,
    wins := 0, losses := 0, pushes := 0, blackjacks := 0, busts := 0,
    total_wagered := 100, total_won := 0 }

/-- Shoe dealing the player ace and king (a natural) and the dealer 9 and
8 (17, no natural). -/
def c8Cards : List Card :=
  filler ++ [cardInit Suit.diamonds "8", cardInit Suit.spades "K",
             cardInit Suit.clubs "9", cardInit Suit.hearts "A"]

/-! ## Helper lemmas -/

theorem ratMul_eq (a b : ℚ) : ratMul a b = a * b := by
  rw [ratMul, Rat.mkRat_eq_div]
  push_cast
  rw [← div_mul_div_comm, Rat.num_div_den, Rat.num_div_den]

theorem pyInt_natCast (n : Nat) : pyInt ((n : ℚ)) = n := by
  unfold pyInt
  rw [Rat.num_natCast, Rat.den_natCast, Nat.div_one]
  exact_mod_cast Int.sign_mul_natAbs (n : Int)

theorem pyInt_ratMul_one (n : Nat) : pyInt (ratMul (n : ℚ) 1) = n := by
  rw [ratMul_eq, mul_one, pyInt_natCast]

theorem adjustAces_eq (v a : Nat) :
    adjustAces v a = if v ≤ 21 then v else v - 10 * min a ((v - 12) / 10) := by
  induction a generalizing v with
  | zero => simp [adjustAces]
  | succ a ih =>
    simp only [adjustAces]
    by_cases hv : 21 < v
    · rw [if_pos hv, ih]
      simp only [Nat.min_def]
      split_ifs <;> omega
    · rw [if_neg hv, if_pos (by omega)]

theorem deckCards_length : deckCards.length = 52 := by decide

theorem freshCards_length (n : Nat) : (freshCards n).length = 52 * n := by
  induction n with
  | zero => simp [freshCards]
  | succ n ih => simp [freshCards, ih, deckCards_length]; omega

theorem draw_concat (shuffle : List Card → List Card) (l : List Card) (c : Card)
    (n : Nat) (hl : 9 ≤ l.length) :
    Deck.draw shuffle { cards := l ++ [c], num_decks := n } =
      some (c, { cards := l, num_decks := n }) := by
  have hlen : ¬ l.length + 1 < 10 := by omega
  simp [Deck.draw, hlen, List.getLast?_concat, List.dropLast_concat]

theorem start_round_concat (shuffle : List Card → List Card) (s : GameState)
    (rest : List Card) (d2 p2 d1 p1 : Card)
    (hdeck : s.deck.cards = rest ++ [d2, p2, d1, p1]) (hl : 9 ≤ rest.length) :
    s.start_round shuffle =
      some { s with
             deck := { cards := rest, num_decks := s.deck.num_decks },
             player_hand := { cards := [p1, p2] },
             dealer_hand := { cards := [d1, d2] } } := by
  obtain ⟨⟨cs, nd⟩, ph, dh, pb, sb, cb, w, lo, pu, bj, bu, tw, tn⟩ := s
  dsimp only at hdeck ⊢
  subst hdeck
  have h1 : Deck.draw shuffle
      { cards := rest ++ [d2, p2, d1, p1], num_decks := nd } =
      some (p1, { cards := rest ++ [d2, p2, d1], num_decks := nd }) := by
    have e : rest ++ [d2, p2, d1, p1] = (rest ++ [d2, p2, d1]) ++ [p1] := by simp
    rw [e]
    exact draw_concat _ _ _ _ (by simp; omega)
  have h2 : Deck.draw shuffle
      { cards := rest ++ [d2, p2, d1], num_decks := nd } =
      some (d1, { cards := rest ++ [d2, p2], num_decks := nd }) := by
    have e : rest ++ [d2, p2, d1] = (rest ++ [d2, p2]) ++ [d1] := by simp
    rw [e]
    exact draw_concat _ _ _ _ (by simp; omega)
  have h3 : Deck.draw shuffle
      { cards := rest ++ [d2, p2], num_decks := nd } =
      some (p2, { cards := rest ++ [d2], num_decks := nd }) := by
    have e : rest ++ [d2, p2] = (rest ++ [d2]) ++ [p2] := by simp
    rw [e]
    exact draw_concat _ _ _ _ (by simp; omega)
  have h4 : Deck.draw shuffle
      { cards := rest ++ [d2], num_decks := nd } =
      some (d2, { cards := rest, num_decks := nd }) :=
    draw_concat _ _ _ _ (by omega)
  simp [GameState.start_round, h1, h2, h3, h4, Hand.add_card]

/-! ## Claim theorems -/

/-- Claim C1 (code bug): the claim says a lost round (multiplier −1)
causes no balance change beyond the bet deducted at placement, so the net
loss equals the bet. The engine instead adds `int(bet * (-1))` to the
balance, deducting the bet a second time: from balance 1000 with bet 100,
a stand on 18 against a standing dealer 20 is recorded as a loss and
leaves balance 800, a net loss of two bets. The same bet lost through the
dealer-blackjack pre-check leaves balance 900, the claimed behaviour, so
the two loss paths of the source disagree. -/
theorem loss_round_deducts_bet_twice :
    (playRound (fun l => l) 10 (initState c1Cards) 100 [Action.stand]).map
        (fun s => (s.player_balance, s.losses, s.wins, s.pushes)) = some (800, 1, 0, 0)
    ∧ (playRound (fun l => l) 10 (initState c1DealerBJCards) 100 []).map
        (fun s => (s.player_balance, s.losses, s.total_won)) = some (900, 1, 0)
    ∧ (initState c1Cards).player_balance = 1000 :=
  ⟨by decide, by decide, by decide⟩

/-- Claim C2 (code bug): the claim says every played round increments
exactly one of wins, losses, pushes, including rounds the player busts.
When the player busts during the hit phase the loop sets the bust flag and
skips `determine_winner` entirely, so no counter changes: with bet 100
from balance 1000, hands 19 against 17 and a hit to 24, the round ends
busted (hand value 24, the bet gone) with every counter still zero. -/
theorem bust_round_increments_no_counter :
    (playRound (fun l => l) 10 (initState c2Cards) 100 [Action.hit]).map
        (fun s => ((s.wins, s.losses, s.pushes), (s.busts, s.blackjacks),
                   s.player_hand.get_value, s.player_balance)) =
      some ((0, 0, 0), (0, 0), 24, 900) := by
  decide

/-- Claim C3 counterexample: a push resolved through `determine_winner`
(equal 19-point hands after a stand) returns multiplier 1, which passes
the `multiplier > 0` guard, so `total_won` grows by the returned bet: the
round ends with pushes = 1 and total_won = 100, refuting the claim that a
push never increments total_won. -/
theorem push_round_increments_total_won :
    (playRound (fun l => l) 10 (initState c3Cards) 100 [Action.stand]).map
        (fun s => (s.pushes, s.total_won, s.player_balance)) = some (1, 100, 1000) := by
  decide

/-- Claim C3 as amended: `total_won` grows exactly when the resolving
multiplier is positive, which includes pushes resolved through
`determine_winner` (multiplier 1 adds the returned bet to total_won); the
both-blackjack pre-check push leaves total_won unchanged, and losses
(multiplier −1) never increase it. -/
theorem total_won_grows_iff_multiplier_positive (s : GameState)
    (hp : s.player_hand.get_value ≤ 21) (hd : s.dealer_hand.get_value ≤ 21)
    (hpb : s.player_hand.is_blackjack = false)
    (hdb : s.dealer_hand.is_blackjack = false)
    (heq : s.player_hand.get_value = s.dealer_hand.get_value) :
    s.determine_winner.1 = 1
    ∧ s.determine_winner.2.2.pushes = s.pushes + 1
    ∧ (s.determine_winner.2.2.settle s.determine_winner.1).total_won
        = s.total_won + (s.current_bet : Int)
    ∧ (s.settle (-1)).total_won = s.total_won
    ∧ s.dealerBlackjackBranch.total_won = s.total_won := by
  have h1 : ¬ 21 < s.player_hand.get_value := Nat.not_lt.mpr hp
  have h2 : ¬ 21 < s.dealer_hand.get_value := Nat.not_lt.mpr hd
  have hw : s.determine_winner =
      (1, "Push! It is a tie.", { s with pushes := s.pushes + 1 }) := by
    simp [GameState.determine_winner, h1, h2, hpb, hdb, heq]
  have hneg : ¬ (0 : ℚ) < -1 := by norm_num
  refine ⟨by rw [hw], by rw [hw], ?_, ?_, ?_⟩
  · rw [hw]
    simp [GameState.settle, pyInt_ratMul_one, zero_lt_one]
  · simp [GameState.settle, hneg]
  · simp [GameState.dealerBlackjackBranch, hpb]

/-- Witness for the amended claim C3 at equal 19-point hands and bet 100:
the push multiplier is 1, the pushes counter advances, and total_won grows
by the bet, while a loss and the both-blackjack branch leave it alone. -/
theorem total_won_grows_iff_multiplier_positive_witness :
    (c3PushState.player_hand.get_value ≤ 21
      ∧ c3PushState.dealer_hand.get_value ≤ 21
      ∧ c3PushState.player_hand.is_blackjack = false
      ∧ c3PushState.dealer_hand.is_blackjack = false
      ∧ c3PushState.player_hand.get_value = c3PushState.dealer_hand.get_value)
    ∧ (c3PushState.determine_winner.1 = 1
      ∧ c3PushState.determine_winner.2.2.pushes = c3PushState.pushes + 1
      ∧ (c3PushState.determine_winner.2.2.settle c3PushState.determine_winner.1).total_won
          = c3PushState.total_won + (c3PushState.current_bet : Int)
      ∧ (c3PushState.settle (-1)).total_won = c3PushState.total_won
      ∧ c3PushState.dealerBlackjackBranch.total_won = c3PushState.total_won) :=
  ⟨⟨by decide, by decide, by decide, by decide, by decide⟩,
    total_won_grows_iff_multiplier_positive c3PushState (by decide) (by decide)
      (by decide) (by decide) (by decide)⟩

/-- Claim C4 (confirmed): `determine_winner` tests the player bust before
every other rule, so whenever the player hand exceeds 21 the result is the
player-bust loss with multiplier −1 and the loss and bust counters
advance, whatever the dealer hand holds. -/
theorem determine_winner_player_bust_first (s : GameState)
    (h : 21 < s.player_hand.get_value) :
    s.determine_winner.1 = -1
    ∧ s.determine_winner.2.1 = "Player busted! Dealer wins."
    ∧ s.determine_winner.2.2.losses = s.losses + 1
    ∧ s.determine_winner.2.2.busts = s.busts + 1
    ∧ s.determine_winner.2.2.wins = s.wins := by
  simp [GameState.determine_winner, h]

/-- Witness for claim C4 at player value 22 against dealer value 26: the
round is the player-bust loss, not a dealer-bust win. -/
theorem determine_winner_player_bust_first_witness :
    (21 < c4State.player_hand.get_value
      ∧ c4State.player_hand.get_value = 22
      ∧ c4State.dealer_hand.get_value = 26)
    ∧ (c4State.determine_winner.1 = -1
      ∧ c4State.determine_winner.2.1 = "Player busted! Dealer wins."
      ∧ c4State.determine_winner.2.2.losses = c4State.losses + 1
      ∧ c4State.determine_winner.2.2.busts = c4State.busts + 1
      ∧ c4State.determine_winner.2.2.wins = c4State.wins) :=
  ⟨⟨by decide, by decide, by decide⟩,
    determine_winner_player_bust_first c4State (by decide)⟩

/-- Claim C5 (confirmed): `Hand.get_value` equals the sum of card values
with every ace first counted as 11, reduced by 10 per ace while the total
exceeds 21 and unreduced aces remain; in closed form the loop removes
min(aces, (raw − 12) / 10) aces when the raw total busts. In particular
ace, ace, 9 resolves to 21 rather than busting, and three aces give 13. -/
theorem get_value_soft_ace_resolution :
    (∀ h : Hand, h.get_value =
      if h.rawTotal ≤ 21 then h.rawTotal
      else h.rawTotal - 10 * min h.aceCount ((h.rawTotal - 12) / 10))
    ∧ Hand.get_value { cards := [cardInit Suit.hearts "A", cardInit Suit.spades "A",
        cardInit Suit.hearts "9"] } = 21
    ∧ Hand.get_value { cards := [cardInit Suit.hearts "A", cardInit Suit.spades "A",
        cardInit Suit.diamonds "A"] } = 13 :=
  ⟨fun h => adjustAces_eq h.rawTotal h.aceCount, by decide, by decide⟩

/-- Claim C9 (confirmed): `is_blackjack` holds exactly for two-card hands
of value 21; a three-card 21 such as 7, 7, 7 is not a blackjack. -/
theorem is_blackjack_iff_two_card_21 :
    (∀ h : Hand, h.is_blackjack = true ↔ h.cards.length = 2 ∧ h.get_value = 21)
    ∧ Hand.get_value { cards := [cardInit Suit.spades "7", cardInit Suit.hearts "7",
        cardInit Suit.diamonds "7"] } = 21
    ∧ Hand.is_blackjack { cards := [cardInit Suit.spades "7", cardInit Suit.hearts "7",
        cardInit Suit.diamonds "7"] } = false := by
  refine ⟨fun h => ?_, by decide, by decide⟩
  simp [Hand.is_blackjack]

/-- Claim C6 (confirmed): `Deck.draw` resets the shoe before drawing
whenever fewer than 10 cards remain, rebuilding the full `num_decks × 52`
list, then removes and returns exactly one card, so the size after the
draw is one less than the post-reshuffle pre-pop size and the draw never
fails. The shuffle is assumed to preserve length, as a permutation does,
and at least one deck is configured, as in every construction the program
performs. -/
theorem draw_reshuffles_then_pops (shuffle : List Card → List Card) (d : Deck)
    (hsh : ∀ l, (shuffle l).length = l.length)
    (hnd : 1 ≤ d.num_decks) :
    ∃ c d2, Deck.draw shuffle d = some (c, d2)
      ∧ d2.num_decks = d.num_decks
      ∧ (Deck.reset shuffle d).cards.length = 52 * d.num_decks
      ∧ (d.cards.length < 10 → d2.cards.length = 52 * d.num_decks - 1)
      ∧ (10 ≤ d.cards.length → d2.cards.length = d.cards.length - 1) := by
  have hreset : (Deck.reset shuffle d).cards.length = 52 * d.num_decks := by
    simp [Deck.reset, hsh, freshCards_length]
  by_cases hlow : d.cards.length < 10
  · have hpos : 0 < (Deck.reset shuffle d).cards.length := by omega
    obtain ⟨a, ha⟩ : ∃ a, (Deck.reset shuffle d).cards.getLast? = some a := by
      cases hg : (Deck.reset shuffle d).cards.getLast? with
      | none =>
        have h0 : (Deck.reset shuffle d).cards = [] := List.getLast?_eq_none_iff.mp hg
        rw [h0] at hpos
        simp at hpos
      | some a => exact ⟨a, rfl⟩
    refine ⟨a, { cards := (Deck.reset shuffle d).cards.dropLast,
                 num_decks := d.num_decks }, ?_, rfl, hreset, ?_, ?_⟩
    · have ha2 : (shuffle (freshCards d.num_decks)).getLast? = some a := by
        simpa [Deck.reset] using ha
      simp [Deck.draw, hlow, Deck.reset, ha2]
    · intro _
      rw [List.length_dropLast, hreset]
    · intro hge
      omega
  · have hpos : 0 < d.cards.length := by omega
    obtain ⟨a, ha⟩ : ∃ a, d.cards.getLast? = some a := by
      cases hg : d.cards.getLast? with
      | none =>
        have h0 : d.cards = [] := List.getLast?_eq_none_iff.mp hg
        rw [h0] at hpos
        simp at hpos
      | some a => exact ⟨a, rfl⟩
    refine ⟨a, { cards := d.cards.dropLast, num_decks := d.num_decks },
      ?_, rfl, hreset, ?_, ?_⟩
    · simp [Deck.draw, hlow, ha]
    · intro h
      omega
    · intro _
      rw [List.length_dropLast]

/-- Witness for claim C6 on an empty one-deck shoe with the identity
shuffle: the draw reshuffles to 52 cards and pops one. -/
theorem draw_reshuffles_then_pops_witness :
    (∀ l : List Card, ((fun x => x) l).length = l.length)
    ∧ 1 ≤ (Deck.mk [] 1).num_decks
    ∧ (∃ c d2, Deck.draw (fun x => x) (Deck.mk [] 1) = some (c, d2)
      ∧ d2.num_decks = (Deck.mk [] 1).num_decks
      ∧ (Deck.reset (fun x => x) (Deck.mk [] 1)).cards.length = 52 * (Deck.mk [] 1).num_decks
      ∧ ((Deck.mk [] 1).cards.length < 10 →
          d2.cards.length = 52 * (Deck.mk [] 1).num_decks - 1)
      ∧ (10 ≤ (Deck.mk [] 1).cards.length →
          d2.cards.length = (Deck.mk [] 1).cards.length - 1)) :=
  ⟨fun l => rfl, by decide,
    draw_reshuffles_then_pops (fun x => x) (Deck.mk [] 1) (fun l => rfl) (by decide)⟩

/-- Claim C7 (confirmed): a legal double down (two-card hand, no prior
double, balance at least the bet, a card available without reshuffle)
deducts the original bet from the balance, doubles `current_bet`, adds
exactly the original bet to `total_wagered` (the code adds the doubled bet
integer-halved), draws exactly one forced card into the player hand, and
ends the turn at once whatever the remaining inputs, busted or not. -/
theorem double_down_effects (shuffle : List Card → List Card) (s : GameState)
    (l : List Card) (c : Card) (acts : List Action)
    (hhand : s.player_hand.cards.length = 2)
    (hbal : (s.current_bet : Int) ≤ s.player_balance)
    (hdeck : s.deck.cards = l ++ [c])
    (hl : 9 ≤ l.length) :
    playerTurn shuffle s (Action.double :: acts) false =
      some ({ s with
              player_balance := s.player_balance - (s.current_bet : Int),
              current_bet := 2 * s.current_bet,
              total_wagered := s.total_wagered + s.current_bet,
              deck := { cards := l, num_decks := s.deck.num_decks },
              player_hand := s.player_hand.add_card c },
            !decide ((s.player_hand.add_card c).get_value ≤ 21)) := by
  obtain ⟨⟨cs, nd⟩, ph, dh, pb, sb, cb, w, lo, pu, bj, bu, tw, tn⟩ := s
  dsimp only at hhand hbal hdeck ⊢
  subst hdeck
  have hdraw : Deck.draw shuffle { cards := l ++ [c], num_decks := nd } =
      some (c, { cards := l, num_decks := nd }) := draw_concat _ _ _ _ hl
  have h2 : 2 * cb / 2 = cb := by omega
  simp [playerTurn, hhand, not_lt.mpr hbal, GameState.player_hit, hdraw, h2]

/-- Witness for claim C7 from balance 1000 and bet 100: after placement
the balance is 900; the double leaves balance 800, bet 200, total wagered
up by the incremental 100, a three-card hand, and an ended turn. -/
theorem double_down_effects_witness :
    (playerTurn (fun x => x) c7State [Action.double] false).map
        (fun p => (p.1.player_balance, p.1.current_bet, p.1.total_wagered,
                   p.1.player_hand.cards.length, p.1.deck.cards.length, p.2)) =
      some (800, 200, 200, 3, 10, false) := by
  rw [double_down_effects (fun x => x) c7State filler (cardInit Suit.clubs "2") []
    (by decide) (by decide) (by decide) (by decide)]
  decide

/-- Claim C8 (confirmed): when the dealt player hand is a natural
blackjack and the dealer hand is not, the round resolves immediately: the
result is the same for every action list, the dealer hand keeps its two
cards and the shoe loses only the four dealt cards, and the balance gains
`int(bet * 2.5)` on top of the placed bet, with the win and blackjack
counters and total_won advancing. -/
theorem player_blackjack_short_circuit (shuffle : List Card → List Card) (fuel : Nat)
    (s : GameState) (bet : Nat) (rest : List Card) (d2 p2 d1 p1 : Card)
    (acts : List Action)
    (hdeck : s.deck.cards = rest ++ [d2, p2, d1, p1])
    (hrest : 9 ≤ rest.length)
    (hbet0 : 0 < bet)
    (hbet : (bet : Int) ≤ s.player_balance)
    (hpbj : Hand.is_blackjack { cards := [p1, p2] } = true)
    (hdbj : Hand.is_blackjack { cards := [d1, d2] } = false) :
    playRound shuffle fuel s bet acts =
      some { s with
             deck := { cards := rest, num_decks := s.deck.num_decks },
             player_hand := { cards := [p1, p2] },
             dealer_hand := { cards := [d1, d2] },
             current_bet := bet,
             total_wagered := s.total_wagered + bet,
             wins := s.wins + 1,
             blackjacks := s.blackjacks + 1,
             total_won := s.total_won + pyInt (ratMul (bet : ℚ) (mkRat 5 2)),
             player_balance := s.player_balance - (bet : Int)
               + pyInt (ratMul (bet : ℚ) (mkRat 5 2)) } := by
  have hguard : ¬ (bet = 0 ∨ s.player_balance < (bet : Int)) := by
    rintro (h0 | hlt)
    · omega
    · omega
  have hsr := start_round_concat shuffle
      { s with current_bet := bet, total_wagered := s.total_wagered + bet,
               player_balance := s.player_balance - (bet : Int) }
      rest d2 p2 d1 p1 (by simpa using hdeck) hrest
  simp only [playRound]
  rw [if_neg hguard, hsr]
  simp [hdbj, hpbj, GameState.playerBlackjackBranch]

/-- Witness for claim C8: the player holds ace and king (a natural), the
dealer 9 and 8; with bet 100 from balance 1000 and no input consumed the
round ends at once with payout 250 credited, balance 1150, one win and
one blackjack recorded, and the dealer still on two cards. -/
theorem player_blackjack_short_circuit_witness :
    (playRound (fun x => x) 10 (initState c8Cards) 100 []).map
        (fun s => (s.player_balance, s.wins, s.blackjacks, s.total_won,
                   s.dealer_hand.cards.length, s.deck.cards.length)) =
      some (1150, 1, 1, 250, 2, 10) := by
  rw [player_blackjack_short_circuit (fun x => x) 10 (initState c8Cards) 100 filler
    (cardInit Suit.diamonds "8") (cardInit Suit.spades "K") (cardInit Suit.clubs "9")
    (cardInit Suit.hearts "A") [] (by decide) (by decide) (by decide) (by decide)
    (by decide) (by decide)]
  decide

/-- Claim C10 counterexample: "X" is outside the fixed 13 ranks, yet
constructing a card with it succeeds and stores the rank unchanged; no
InvalidCardSpec failure exists anywhere in the program. -/
theorem invalid_rank_construction_succeeds :
    validRank "X" = false
    ∧ cardInit Suit.hearts "X" = { suit := Suit.hearts, rank := "X" } :=
  ⟨by decide, rfl⟩

/-- Claim C10 as amended: card construction performs no validation and
never fails for any suit and rank; a rank outside the fixed 13 is stored
as-is and only surfaces later, when `get_value` evaluates `int(rank)` and
raises, while every rank of the fixed list evaluates successfully. -/
theorem card_construction_never_validates :
    (∀ (su : Suit) (r : String), cardInit su r = { suit := su, rank := r })
    ∧ (cardInit Suit.hearts "X").get_value? = none
    ∧ (∀ (su : Suit) (r : String), validRank r = true →
        ((cardInit su r).get_value?).isSome = true) := by
  refine ⟨fun su r => rfl, by decide, fun su r hr => ?_⟩
  have hm : r ∈ rankList := List.mem_of_elem_eq_true hr
  have hmem : r = "2" ∨ r = "3" ∨ r = "4" ∨ r = "5" ∨ r = "6" ∨ r = "7" ∨ r = "8"
      ∨ r = "9" ∨ r = "10" ∨ r = "J" ∨ r = "Q" ∨ r = "K" ∨ r = "A" := by
    simpa [rankList] using hm
  rcases hmem with h | h | h | h | h | h | h | h | h | h | h | h | h <;> subst h <;> rfl

/-- Witness for the amended claim C10 at the valid rank of an ace. -/
theorem card_construction_never_validates_witness :
    validRank "A" = true
    ∧ ((cardInit Suit.hearts "A").get_value?).isSome = true :=
  ⟨by decide, card_construction_never_validates.2.2 Suit.hearts "A" (by decide)⟩

end Blackjack
